import Mathlib

/-!
Verification of the calendar-construction functions of `src/Functions/makeDate.cpp`:
`makeDate`, `makeDate32`, `makeDateTime`, `makeDateTime64`, `YYYYMMDDToDate`,
`YYYYMMDDToDate32`, `YYYYMMDDhhmmssToDateTime`, `YYYYMMDDhhmmssToDateTime64`.

The row-wise transforms are embedded shallowly:
* a numeric column cell (`Float32`/`Float64` after conversion) is a `FVal`:
  NaN, an infinity, or a finite value, the finite values taken as exact
  rationals (the spec data model calls the fields "real-valued");
* the external Calendar Service (`DateLUTImpl`, an external collaborator per
  spec section 6) is an abstract parameter: `makeDayNum` for the date
  constructors, a `DateLUTT` record for the datetime constructors.  A concrete
  proleptic-Gregorian instance (`gregDayNum`, `gregLUT`) is provided for
  evaluating theorems at concrete inputs;
* `static_cast` of a floating value to an integer type is truncation toward
  zero (`qtrunc`), and `std::llround` is rounding half away from zero
  (`llround`);
* a whole-call failure (`throw Exception(BAD_ARGUMENTS, ...)`) is `Except.error`
  carrying the message text.
-/

namespace DB

/-- Truncation of a rational toward zero; models `static_cast<IntN>(floatValue)`. -/
def qtrunc (q : ℚ) : ℤ := q.num.tdiv q.den

/-- Floor of a rational, computably (`q.num / q.den` with Euclidean division). -/
def qfloor (q : ℚ) : ℤ := q.num / (q.den : ℤ)

/-- One half, in a kernel-computable normal form. -/
def half : ℚ := mkRat 1 2

/-- Models `std::llround`: round to nearest integer, halves away from zero. -/
def llround (q : ℚ) : ℤ := if 0 ≤ q then qfloor (q + half) else -qfloor (-q + half)

/-- A numeric column cell after conversion to `Float32`/`Float64`: NaN, one of
the two infinities, or a finite value (kept exact as a rational). -/
inductive FVal where
  | nan : FVal
  | posInf : FVal
  | negInf : FVal
  | num : ℚ → FVal
deriving DecidableEq

namespace FVal

/-- Models `std::isnan`. -/
def isNaN : FVal → Bool
  | .nan => true
  | _ => false

/-- A value that is neither NaN nor an infinity (negation of
`std::isinf(x) || std::isnan(x)`). -/
def isFinite : FVal → Bool
  | .num _ => true
  | _ => false

/-- Models `static_cast<IntN>` applied to a field value (truncation toward
zero); only reached by the source under guards that exclude NaN/infinities. -/
def trunc : FVal → ℤ
  | .num q => qtrunc q
  | _ => 0

/-- The rational payload of a finite value. -/
def toRat : FVal → ℚ
  | .num q => q
  | _ => 0

end FVal

/-- IEEE-style `x < c` against a finite constant: false when `x` is NaN. -/
def flt : FVal → ℚ → Bool
  | .nan, _ => false
  | .posInf, _ => false
  | .negInf, _ => true
  | .num q, c => decide (q < c)

/-- IEEE-style `x > c` against a finite constant: false when `x` is NaN. -/
def fgt : FVal → ℚ → Bool
  | .nan, _ => false
  | .posInf, _ => true
  | .negInf, _ => false
  | .num q, c => decide (c < q)

/-- IEEE-style `x <= c` against a finite constant: false when `x` is NaN. -/
def fle : FVal → ℚ → Bool
  | .nan, _ => false
  | .posInf, _ => false
  | .negInf, _ => true
  | .num q, c => decide (q ≤ c)

/-- IEEE-style `x >= c` against a finite constant: false when `x` is NaN. -/
def fge : FVal → ℚ → Bool
  | .nan, _ => false
  | .posInf, _ => true
  | .negInf, _ => false
  | .num q, c => decide (c ≤ q)

/-- The per-output-type data of `DateTraits` / `Date32Traits`. -/
structure DateTraitsT where
  minYear : ℤ
  maxYear : ℤ
  maxDateYear : ℤ
  maxDateMonth : ℤ
  maxDateDay : ℤ
  yyyymmddName : String

/-- Traits of the narrow 16-bit `Date` (`DateTraits`): years 1970..2149, `MAX_DATE` 2149-06-06. -/
def DateTraits : DateTraitsT :=
  { minYear := 1970, maxYear := 2149
    maxDateYear := 2149, maxDateMonth := 6, maxDateDay := 6
    yyyymmddName := "YYYYMMDDToDate" }

/-- Traits of the wide `Date32` (`Date32Traits`): years 1900..2299, `MAX_DATE` 2299-12-31. -/
def Date32Traits : DateTraitsT :=
  { minYear := 1900, maxYear := 2299
    maxDateYear := 2299, maxDateMonth := 12, maxDateDay := 31
    yyyymmddName := "YYYYMMDDToDate32" }

/-- The `max_days_since_epoch` value: the day-count of the type's `MAX_DATE` triple,
computed once per call from the Calendar Service. -/
def maxDaysSinceEpoch (tr : DateTraitsT) (makeDayNum : ℤ → ℤ → ℤ → ℤ) : ℤ :=
  makeDayNum tr.maxDateYear tr.maxDateMonth tr.maxDateDay

/-- One row of the three-argument `makeDate` / `makeDate32`
(`FunctionMakeDate::executeImpl`, year/month/day variant): bounds check on the
raw field values, day-number via the Calendar Service on the truncated fields,
saturation of an overflowing day-count to 0. -/
def makeDateYMD (tr : DateTraitsT) (makeDayNum : ℤ → ℤ → ℤ → ℤ)
    (year month day : FVal) : ℤ :=
  if fge year tr.minYear && fle year tr.maxYear &&
     fge month 1 && fle month 12 &&
     fge day 1 && fle day 31 then
    let daysSinceEpoch := makeDayNum year.trunc month.trunc day.trunc
    if daysSinceEpoch ≤ maxDaysSinceEpoch tr makeDayNum then daysSinceEpoch else 0
  else 0

/-- One row of the two-argument `makeDate` / `makeDate32`
(`FunctionMakeDate::executeImpl`, year/day-of-year variant). -/
def makeDateYD (tr : DateTraitsT) (makeDayNum : ℤ → ℤ → ℤ → ℤ)
    (year dayofyear : FVal) : ℤ :=
  if fge year tr.minYear && fle year tr.maxYear &&
     fge dayofyear 1 && fle dayofyear 365 then
    let daysSinceEpoch := makeDayNum year.trunc 1 1 + dayofyear.trunc - 1
    if daysSinceEpoch ≤ maxDaysSinceEpoch tr makeDayNum then daysSinceEpoch else 0
  else 0

/-- The message of the `BAD_ARGUMENTS` exception thrown on a non-finite packed
argument, with the function name substituted. -/
def finiteErrMsg (functionName : String) : String :=
  "Argument for function " ++ functionName ++ " must be finite"

/-- One row of `YYYYMMDDToDate` / `YYYYMMDDToDate32`
(`FunctionYYYYYMMDDToDate::executeImpl`): throws on an infinite or NaN input,
otherwise rounds, decomposes by 10000/100 and applies the `makeDate` bounds
check and saturation. -/
def yyyymmddToDateRow (tr : DateTraitsT) (makeDayNum : ℤ → ℤ → ℤ → ℤ)
    (x : FVal) : Except String ℤ :=
  match x with
  | .num q =>
    let yyyymmdd := llround q
    let year := yyyymmdd.tdiv 10000
    let month := (yyyymmdd.tdiv 100).tmod 100
    let day := yyyymmdd.tmod 100
    let dayNum : ℤ :=
      if tr.minYear ≤ year ∧ year ≤ tr.maxYear ∧
         1 ≤ month ∧ month ≤ 12 ∧ 1 ≤ day ∧ day ≤ 31 then
        let daysSinceEpoch := makeDayNum year month day
        if daysSinceEpoch ≤ maxDaysSinceEpoch tr makeDayNum then daysSinceEpoch else 0
      else 0
    .ok dayNum
  | _ => .error (finiteErrMsg tr.yyyymmddName)

/-- The whole-column execution of `YYYYMMDDToDate[32]`: rows are processed in
order and the first non-finite input aborts the call. -/
def yyyymmddToDateCol (tr : DateTraitsT) (makeDayNum : ℤ → ℤ → ℤ → ℤ) :
    List FVal → Except String (List ℤ)
  | [] => .ok []
  | x :: xs =>
    match yyyymmddToDateRow tr makeDayNum x with
    | .error e => .error e
    | .ok r =>
      match yyyymmddToDateCol tr makeDayNum xs with
      | .error e => .error e
      | .ok rs => .ok (r :: rs)

/-- The Calendar Service interface used by the datetime constructors: the
`DATE_LUT_MIN_YEAR` / `DATE_LUT_MAX_YEAR` constants and
`DateLUTImpl::makeDateTime` for the resolved timezone (external collaborator,
spec section 6). -/
structure DateLUTT where
  minYear : ℤ
  maxYear : ℤ
  makeDateTime : ℤ → ℤ → ℤ → ℤ → ℤ → ℤ → ℤ

/-- The minimum sentinel seconds value (`FunctionDateTimeBase::minDateTime`),
`lut.makeDateTime(DATE_LUT_MIN_YEAR - 1, 1, 1, 0, 0, 0)`. -/
def minDateTime (lut : DateLUTT) : ℤ := lut.makeDateTime (lut.minYear - 1) 1 1 0 0 0

/-- The maximum sentinel seconds value (`FunctionDateTimeBase::maxDateTime`),
`lut.makeDateTime(DATE_LUT_MAX_YEAR + 1, 1, 1, 23, 59, 59)`. -/
def maxDateTime (lut : DateLUTT) : ℤ := lut.makeDateTime (lut.maxYear + 1) 1 1 23 59 59

/-- The field guard of `FunctionDateTimeBase::dateTime`: any NaN field, or
year below the global minimum, or month/day/hour/minute/second outside
`[1,12]/[1,31]/[0,99]x3`. -/
def dateTimeBad (lut : DateLUTT) (year month day hour minute second : FVal) : Bool :=
  year.isNaN || month.isNaN || day.isNaN || hour.isNaN || minute.isNaN || second.isNaN ||
  flt year lut.minYear || flt month 1 || fgt month 12 || flt day 1 || fgt day 31 ||
  flt hour 0 || fgt hour 99 || flt minute 0 || fgt minute 99 || flt second 0 || fgt second 99

/-- The shared `FunctionDateTimeBase::dateTime` kernel: the pre-clamp seconds value of a row; the
minimum sentinel on a failed guard, the maximum sentinel for a too-large year,
otherwise the Calendar Service value on the truncated fields. -/
def dateTime (lut : DateLUTT) (year month day hour minute second : FVal) : ℤ :=
  if dateTimeBad lut year month day hour minute second then minDateTime lut
  else if fgt year lut.maxYear then maxDateTime lut
  else lut.makeDateTime year.trunc month.trunc day.trunc hour.trunc minute.trunc second.trunc

/-- One row of `makeDateTime` (`FunctionMakeDateTime::executeImpl`): the
pre-clamp value of `dateTime`, clamped into `[0, 0xFFFFFFFF]` for the 32-bit
output column. -/
def makeDateTimeRow (lut : DateLUTT) (year month day hour minute second : FVal) : ℤ :=
  let dt := dateTime lut year month day hour minute second
  if dt < 0 then 0
  else if 0xffffffff < dt then 0xffffffff
  else dt

/-- Modelled from the spec: the packing routine
`DecimalUtils::decimalFromComponents` (declared in `Core/DecimalFunctions.h`,
which is not among the sources here).  Spec section 4.5 step 4: the standard
fixed-point decimal composition `value = seconds * 10^precision + fraction`,
sign-aware for negative seconds. -/
def decimalFromComponents (seconds fraction : ℤ) (precision : ℕ) : ℤ :=
  if seconds < 0 then seconds * 10 ^ precision - fraction
  else seconds * 10 ^ precision + fraction

/-- The sub-second component of a packed fixed-point value: the value of the
low `precision` decimal digits of its absolute value. -/
def packedFraction (v : ℤ) (precision : ℕ) : ℤ :=
  (v.natAbs : ℤ) % (10 ^ precision)

/-- One row of `makeDateTime64` (`FunctionMakeDateTime64::executeImpl`):
the base seconds from `dateTime`; fraction forced to 0 at the minimum sentinel
and to `999999999` at the maximum sentinel; otherwise the supplied fraction with
NaN demoting the row to the minimum sentinel and negative / too-large values
clamped to `0` / `10^precision - 1`; then packed via
`DecimalUtils::decimalFromComponents`. -/
def makeDateTime64Row (lut : DateLUTT) (precision : ℕ)
    (year month day hour minute second fraction : FVal) : ℤ :=
  let maxFraction : ℚ := 10 ^ precision - 1
  let dt0 := dateTime lut year month day hour minute second
  let step : ℤ × ℚ :=
    if dt0 = minDateTime lut then (dt0, 0)
    else if dt0 = maxDateTime lut then (dt0, 999999999)
    else if fraction.isNaN then (minDateTime lut, 0)
    else if flt fraction 0 then (dt0, 0)
    else if fgt fraction maxFraction then (dt0, maxFraction)
    else (dt0, fraction.toRat)
  decimalFromComponents step.1 (qtrunc step.2) precision

/-- One row of `YYYYMMDDhhmmssToDateTime`
(`FunctionYYYYMMDDhhmmssToDateTime::executeImpl`): throws on an infinite or NaN
input, otherwise rounds, decomposes into the six fields, applies `dateTime` and
the `[0, 0xFFFFFFFF]` clamp. -/
def yyyymmddhhmmssToDateTimeRow (lut : DateLUTT) (x : FVal) : Except String ℤ :=
  match x with
  | .num q =>
    let yyyymmddhhmmss := llround q
    let yyyymmdd := yyyymmddhhmmss.tdiv 1000000
    let hhmmss := yyyymmddhhmmss.tmod 1000000
    let year := yyyymmdd.tdiv 10000
    let month := (yyyymmdd.tdiv 100).tmod 100
    let day := yyyymmdd.tmod 100
    let hour := hhmmss.tdiv 10000
    let minute := (hhmmss.tdiv 100).tmod 100
    let second := hhmmss.tmod 100
    let dt := dateTime lut (.num year) (.num month) (.num day)
                           (.num hour) (.num minute) (.num second)
    .ok (if dt < 0 then 0 else if 0xffffffff < dt then 0xffffffff else dt)
  | _ => .error (finiteErrMsg "YYYYMMDDhhmmssToDateTime")

/-- The whole-column execution of `YYYYMMDDhhmmssToDateTime`. -/
def yyyymmddhhmmssToDateTimeCol (lut : DateLUTT) :
    List FVal → Except String (List ℤ)
  | [] => .ok []
  | x :: xs =>
    match yyyymmddhhmmssToDateTimeRow lut x with
    | .error e => .error e
    | .ok r =>
      match yyyymmddhhmmssToDateTimeCol lut xs with
      | .error e => .error e
      | .ok rs => .ok (r :: rs)

/-- One row of `YYYYMMDDhhmmssToDateTime64`
(`FunctionYYYYMMDDhhmmssToDateTime64::executeImpl`): throws on an infinite or
NaN input; otherwise rounds, keeps the decimal residue `raw - rounded`,
decomposes the integral part into the six fields, and packs the `dateTime`
seconds with the residue scaled by `10^precision` and rounded — with no
sentinel override of the fraction. -/
def yyyymmddhhmmssToDateTime64Row (lut : DateLUTT) (precision : ℕ)
    (x : FVal) : Except String ℤ :=
  match x with
  | .num q =>
    let yyyymmddhhmmss := llround q
    let yyyymmdd := yyyymmddhhmmss.tdiv 1000000
    let hhmmss := yyyymmddhhmmss.tmod 1000000
    let decimal : ℚ := q - yyyymmddhhmmss
    let year := yyyymmdd.tdiv 10000
    let month := (yyyymmdd.tdiv 100).tmod 100
    let day := yyyymmdd.tmod 100
    let hour := hhmmss.tdiv 10000
    let minute := (hhmmss.tdiv 100).tmod 100
    let second := hhmmss.tmod 100
    let dt := dateTime lut (.num year) (.num month) (.num day)
                           (.num hour) (.num minute) (.num second)
    let fraction := llround (decimal * 10 ^ precision)
    .ok (decimalFromComponents dt fraction precision)
  | _ => .error (finiteErrMsg "YYYYMMDDhhmmssToDateTime64")

/-- The whole-column execution of `YYYYMMDDhhmmssToDateTime64`. -/
def yyyymmddhhmmssToDateTime64Col (lut : DateLUTT) (precision : ℕ) :
    List FVal → Except String (List ℤ)
  | [] => .ok []
  | x :: xs =>
    match yyyymmddhhmmssToDateTime64Row lut precision x with
    | .error e => .error e
    | .ok r =>
      match yyyymmddhhmmssToDateTime64Col lut precision xs with
      | .error e => .error e
      | .ok rs => .ok (r :: rs)

/-- Days since 1970-01-01 of a proleptic-Gregorian date (the civil-from-days
algorithm); a concrete instance of the Calendar Service's `makeDayNum` used to
evaluate the theorems at concrete inputs. -/
def gregDayNum (y m d : ℤ) : ℤ :=
  let yAdj := if m ≤ 2 then y - 1 else y
  let era := yAdj / 400
  let yoe := yAdj - era * 400
  let doy := (153 * (if 2 < m then m - 3 else m + 9) + 2) / 5 + d - 1
  let doe := yoe * 365 + yoe / 4 - yoe / 100 + doy
  era * 146097 + doe - 719468

/-- A concrete UTC instance of the Calendar Service for the datetime family:
`DATE_LUT_MIN_YEAR = 1925`, `DATE_LUT_MAX_YEAR = 2283`, seconds since epoch
from the proleptic-Gregorian day number. -/
def gregLUT : DateLUTT :=
  { minYear := 1925, maxYear := 2283
    makeDateTime := fun y mo d h mi s =>
      86400 * gregDayNum y mo d + 3600 * h + 60 * mi + s }

/-! Helper lemmas about truncation, rounding and the field guards. -/

lemma qtrunc_intCast (n : ℤ) : qtrunc (n : ℚ) = n := by
  simp [qtrunc, Rat.num_intCast, Rat.den_intCast]

lemma trunc_num_intCast (n : ℤ) : (FVal.num (n : ℚ)).trunc = n := by
  simp [FVal.trunc, qtrunc_intCast]

lemma qfloor_eq_floor (q : ℚ) : qfloor q = ⌊q⌋ := Rat.floor_def.symm

lemma qtrunc_eq_floor {q : ℚ} (h : 0 ≤ q) : qtrunc q = ⌊q⌋ := by
  rw [qtrunc, Int.tdiv_eq_ediv (Rat.num_nonneg.mpr h) (Int.natCast_nonneg _), Rat.floor_def]

lemma le_qtrunc {c : ℤ} {q : ℚ} (hq : 0 ≤ q) (h : (c : ℚ) ≤ q) : c ≤ qtrunc q := by
  rw [qtrunc_eq_floor hq]; exact Int.le_floor.mpr h

lemma qtrunc_le {c : ℤ} {q : ℚ} (hq : 0 ≤ q) (h : q ≤ (c : ℚ)) : qtrunc q ≤ c := by
  rw [qtrunc_eq_floor hq]
  calc ⌊q⌋ ≤ ⌊(c : ℚ)⌋ := Int.floor_le_floor h
    _ = c := Int.floor_intCast c

/-- The well-formedness condition of a (year, month, day) row, as the spec
states it: all three fields finite, year within the type's year range, month in
[1,12], day in [1,31]. -/
def inRangeYMD (tr : DateTraitsT) (year month day : FVal) : Prop :=
  ∃ qy qm qd : ℚ, year = .num qy ∧ month = .num qm ∧ day = .num qd ∧
    (tr.minYear : ℚ) ≤ qy ∧ qy ≤ (tr.maxYear : ℚ) ∧
    1 ≤ qm ∧ qm ≤ 12 ∧ 1 ≤ qd ∧ qd ≤ 31

lemma ymdGuard_iff (tr : DateTraitsT) (year month day : FVal) :
    (fge year (tr.minYear : ℚ) && fle year (tr.maxYear : ℚ) &&
     fge month 1 && fle month 12 &&
     fge day 1 && fle day 31) = true ↔ inRangeYMD tr year month day := by
  cases year <;> cases month <;> cases day <;>
    simp [fge, fle, inRangeYMD, and_assoc]

/-- Claim C1: for every row of the three-argument makeDate / makeDate32
(year, month, day): if year is in the type's range (1970-2149 for makeDate,
1900-2299 for makeDate32), month is in [1,12], day is in [1,31], and the
Calendar Service day-number `makeDayNum` on the (truncated) fields does not
exceed the day-count precomputed from the type's `MAX_DATE` triple, then the
output equals that day-number; in every other case (including any NaN field)
the output is 0 — and no error is raised, which the embedding reflects by
`makeDateYMD` being a total function into the day-count integers. -/
theorem C1_makeDate_bounds_saturation (tr : DateTraitsT)
    (makeDayNum : ℤ → ℤ → ℤ → ℤ) (year month day : FVal) :
    (inRangeYMD tr year month day →
      makeDayNum year.trunc month.trunc day.trunc ≤ maxDaysSinceEpoch tr makeDayNum →
      makeDateYMD tr makeDayNum year month day =
        makeDayNum year.trunc month.trunc day.trunc) ∧
    (¬ (inRangeYMD tr year month day ∧
        makeDayNum year.trunc month.trunc day.trunc ≤ maxDaysSinceEpoch tr makeDayNum) →
      makeDateYMD tr makeDayNum year month day = 0) := by
  constructor
  · intro hin hle
    have hg := (ymdGuard_iff tr year month day).mpr hin
    simp only [makeDateYMD, hg, if_true, if_pos hle]
  · intro hn
    by_cases hin : inRangeYMD tr year month day
    · have hg := (ymdGuard_iff tr year month day).mpr hin
      have hle : ¬ makeDayNum year.trunc month.trunc day.trunc ≤
          maxDaysSinceEpoch tr makeDayNum := fun h => hn ⟨hin, h⟩
      simp only [makeDateYMD, hg, if_true, if_neg hle]
    · have hg : (fge year (tr.minYear : ℚ) && fle year (tr.maxYear : ℚ) &&
          fge month 1 && fle month 12 && fge day 1 && fle day 31) = false := by
        rw [← Bool.not_eq_true, ymdGuard_iff]; exact hin
      simp only [makeDateYMD, hg, Bool.false_eq_true, if_false]

/-- Witness for C1: the spec's example row makeDate(2023, 2, 28) hits the
in-range, non-saturating branch and returns the Calendar Service day-number
19416 (2023-02-28). -/
theorem C1_makeDate_bounds_saturation_witness :
    makeDateYMD DateTraits gregDayNum (.num 2023) (.num 2) (.num 28) = 19416 := by
  have h := (C1_makeDate_bounds_saturation DateTraits gregDayNum
      (.num 2023) (.num 2) (.num 28)).1
      ⟨2023, 2, 28, rfl, rfl, rfl, by norm_num [DateTraits], by norm_num [DateTraits],
        by norm_num, by norm_num, by norm_num, by norm_num⟩
      (by decide)
  rw [h]; decide

lemma ymdGuard_int (tr : DateTraitsT) (y mo d : ℤ) :
    (fge (.num (y : ℚ)) (tr.minYear : ℚ) && fle (.num (y : ℚ)) (tr.maxYear : ℚ) &&
     fge (.num (mo : ℚ)) 1 && fle (.num (mo : ℚ)) 12 &&
     fge (.num (d : ℚ)) 1 && fle (.num (d : ℚ)) 31) = true ↔
    (tr.minYear ≤ y ∧ y ≤ tr.maxYear ∧ 1 ≤ mo ∧ mo ≤ 12 ∧ 1 ≤ d ∧ d ≤ 31) := by
  simp only [fge, fle, Bool.and_eq_true, decide_eq_true_eq, and_assoc]
  constructor
  · rintro ⟨h1, h2, h3, h4, h5, h6⟩
    exact ⟨by exact_mod_cast h1, by exact_mod_cast h2, by exact_mod_cast h3,
      by exact_mod_cast h4, by exact_mod_cast h5, by exact_mod_cast h6⟩
  · rintro ⟨h1, h2, h3, h4, h5, h6⟩
    exact ⟨by exact_mod_cast h1, by exact_mod_cast h2, by exact_mod_cast h3,
      by exact_mod_cast h4, by exact_mod_cast h5, by exact_mod_cast h6⟩

/-- On integral field values, `makeDateYMD` reduces to integer bounds checks
and saturation. -/
lemma makeDateYMD_intFields (tr : DateTraitsT) (makeDayNum : ℤ → ℤ → ℤ → ℤ)
    (y mo d : ℤ) :
    makeDateYMD tr makeDayNum (.num (y : ℚ)) (.num (mo : ℚ)) (.num (d : ℚ)) =
      if tr.minYear ≤ y ∧ y ≤ tr.maxYear ∧ 1 ≤ mo ∧ mo ≤ 12 ∧ 1 ≤ d ∧ d ≤ 31 then
        (if makeDayNum y mo d ≤ maxDaysSinceEpoch tr makeDayNum
         then makeDayNum y mo d else 0)
      else 0 := by
  by_cases h : tr.minYear ≤ y ∧ y ≤ tr.maxYear ∧ 1 ≤ mo ∧ mo ≤ 12 ∧ 1 ≤ d ∧ d ≤ 31
  · have hg := (ymdGuard_int tr y mo d).mpr h
    simp only [makeDateYMD, hg, if_true, if_pos h, trunc_num_intCast]
  · have hg : (fge (.num (y : ℚ)) (tr.minYear : ℚ) &&
        fle (.num (y : ℚ)) (tr.maxYear : ℚ) &&
        fge (.num (mo : ℚ)) 1 && fle (.num (mo : ℚ)) 12 &&
        fge (.num (d : ℚ)) 1 && fle (.num (d : ℚ)) 31) = false := by
      rw [← Bool.not_eq_true, ymdGuard_int]; exact h
    simp only [makeDateYMD, hg, Bool.false_eq_true, if_false, if_neg h]

/-- Claim C6: for every finite input, YYYYMMDDToDate (resp. YYYYMMDDToDate32)
rounds the input to the nearest integer with ties away from zero, decomposes it
as year = n / 10000, month = n / 100 mod 100, day = n mod 100 (truncating
integer division), and returns exactly what the three-argument makeDate
(resp. makeDate32) returns on those fields, including the 0 default on bounds
failure or day-count overflow. -/
theorem C6_yyyymmddToDate_refines_makeDate (tr : DateTraitsT)
    (makeDayNum : ℤ → ℤ → ℤ → ℤ) (q : ℚ) :
    yyyymmddToDateRow tr makeDayNum (.num q) =
      .ok (makeDateYMD tr makeDayNum
        (.num (((llround q).tdiv 10000 : ℤ) : ℚ))
        (.num ((((llround q).tdiv 100).tmod 100 : ℤ) : ℚ))
        (.num (((llround q).tmod 100 : ℤ) : ℚ))) := by
  simp only [yyyymmddToDateRow, makeDateYMD_intFields]

/-- A field value strictly below a finite bound, in the IEEE sense (false for
NaN, true for negative infinity). -/
def fvalLT (x : FVal) (c : ℚ) : Prop :=
  x = .negInf ∨ ∃ q, x = .num q ∧ q < c

/-- A field value strictly above a finite bound, in the IEEE sense (false for
NaN, true for positive infinity). -/
def fvalGT (x : FVal) (c : ℚ) : Prop :=
  x = .posInf ∨ ∃ q, x = .num q ∧ c < q

lemma flt_iff (x : FVal) (c : ℚ) : flt x c = true ↔ fvalLT x c := by
  cases x <;> simp [flt, fvalLT]

lemma fgt_iff (x : FVal) (c : ℚ) : fgt x c = true ↔ fvalGT x c := by
  cases x <;> simp [fgt, fvalGT]

lemma isNaN_iff (x : FVal) : x.isNaN = true ↔ x = .nan := by
  cases x <;> simp [FVal.isNaN]

/-- The failure condition of the spec's section 4.4 step 1: some field NaN, or
year below the global minimum, or month/day/hour/minute/second outside their
`[1,12] / [1,31] / [0,99]x3` bounds. -/
def dateTimeFieldsInvalid (lut : DateLUTT)
    (year month day hour minute second : FVal) : Prop :=
  year = .nan ∨ month = .nan ∨ day = .nan ∨ hour = .nan ∨ minute = .nan ∨ second = .nan ∨
  fvalLT year (lut.minYear : ℚ) ∨ fvalLT month 1 ∨ fvalGT month 12 ∨
  fvalLT day 1 ∨ fvalGT day 31 ∨ fvalLT hour 0 ∨ fvalGT hour 99 ∨
  fvalLT minute 0 ∨ fvalGT minute 99 ∨ fvalLT second 0 ∨ fvalGT second 99

lemma dateTimeBad_iff (lut : DateLUTT) (year month day hour minute second : FVal) :
    dateTimeBad lut year month day hour minute second = true ↔
      dateTimeFieldsInvalid lut year month day hour minute second := by
  simp [dateTimeBad, dateTimeFieldsInvalid, Bool.or_eq_true, flt_iff, fgt_iff,
    isNaN_iff, or_assoc]

/-- Claim C2: for every row of makeDateTime, if any of the six fields is NaN,
or year is below the global minimum year, or month/day/hour/minute/second fail
their [1,12]/[1,31]/[0,99]x3 bounds, the pre-clamp result is the Calendar
Service's seconds value for (minYear-1,1,1,0,0,0); otherwise if year exceeds
the global maximum year it is the value for (maxYear+1,1,1,23,59,59); otherwise
it is the Calendar Service's makeDateTime on the (truncated) fields in the
resolved timezone; and the stored 32-bit output is that result clamped into
[0, 0xFFFFFFFF]. -/
theorem C2_makeDateTime_sentinels_clamp (lut : DateLUTT)
    (year month day hour minute second : FVal) :
    (dateTimeFieldsInvalid lut year month day hour minute second →
      dateTime lut year month day hour minute second = minDateTime lut) ∧
    (¬ dateTimeFieldsInvalid lut year month day hour minute second →
      fvalGT year (lut.maxYear : ℚ) →
      dateTime lut year month day hour minute second = maxDateTime lut) ∧
    (¬ dateTimeFieldsInvalid lut year month day hour minute second →
      ¬ fvalGT year (lut.maxYear : ℚ) →
      dateTime lut year month day hour minute second =
        lut.makeDateTime year.trunc month.trunc day.trunc
          hour.trunc minute.trunc second.trunc) ∧
    makeDateTimeRow lut year month day hour minute second =
      max 0 (min (dateTime lut year month day hour minute second) 0xffffffff) := by
  refine ⟨?_, ?_, ?_, ?_⟩
  · intro h
    have hb := (dateTimeBad_iff lut year month day hour minute second).mpr h
    simp only [dateTime, hb, if_true]
  · intro h hy
    have hb : dateTimeBad lut year month day hour minute second = false := by
      rw [← Bool.not_eq_true, dateTimeBad_iff]; exact h
    have hg : fgt year (lut.maxYear : ℚ) = true := (fgt_iff _ _).mpr hy
    simp only [dateTime, hb, Bool.false_eq_true, if_false, hg, if_true]
  · intro h hy
    have hb : dateTimeBad lut year month day hour minute second = false := by
      rw [← Bool.not_eq_true, dateTimeBad_iff]; exact h
    have hg : fgt year (lut.maxYear : ℚ) = false := by
      rw [← Bool.not_eq_true, fgt_iff]; exact hy
    simp only [dateTime, hb, hg, Bool.false_eq_true, if_false]
  · simp only [makeDateTimeRow]
    split_ifs <;> omega

/-- Witness for C2: the spec's example makeDateTime(2023,2,28,17,12,33) goes
through the non-sentinel branch and the clamp, giving 1677604353 (the UTC
seconds of 2023-02-28 17:12:33). -/
theorem C2_makeDateTime_sentinels_clamp_witness :
    makeDateTimeRow gregLUT (.num 2023) (.num 2) (.num 28)
      (.num 17) (.num 12) (.num 33) = 1677604353 := by
  have h := C2_makeDateTime_sentinels_clamp gregLUT (.num 2023) (.num 2) (.num 28)
    (.num 17) (.num 12) (.num 33)
  have hni : ¬ dateTimeFieldsInvalid gregLUT (.num 2023) (.num 2) (.num 28)
      (.num 17) (.num 12) (.num 33) := by
    rw [← dateTimeBad_iff]
    simp only [show dateTimeBad gregLUT (.num 2023) (.num 2) (.num 28)
      (.num 17) (.num 12) (.num 33) = false from by decide]
    simp
  have hng : ¬ fvalGT (.num 2023) ((gregLUT.maxYear : ℤ) : ℚ) := by
    rw [← fgt_iff]
    simp only [show fgt (.num 2023) ((gregLUT.maxYear : ℤ) : ℚ) = false from by decide]
    simp
  rw [h.2.2.2, h.2.2.1 hni hng]
  decide

/-- The sub-second component of a packed value with a fraction in place: the
packing keeps the fraction in the low decimal digits, modulo `10^precision`. -/
lemma packedFraction_pack (s f : ℤ) (p : ℕ) (hf : 0 ≤ f) :
    packedFraction (decimalFromComponents s f p) p = f % 10 ^ p := by
  have hm : (0 : ℤ) < 10 ^ p := pow_pos (by norm_num) p
  unfold decimalFromComponents packedFraction
  by_cases hs : s < 0
  · rw [if_pos hs]
    have hsm : s * 10 ^ p ≤ -(10 ^ p) := by
      have := mul_le_mul_of_nonneg_right (show s ≤ -1 by omega) (le_of_lt hm)
      simpa using this
    rw [← Int.natAbs_neg, Int.natAbs_of_nonneg (by omega)]
    have he : -(s * 10 ^ p - f) = f + 10 ^ p * (-s) := by ring
    rw [he, Int.add_mul_emod_self_left]
  · rw [if_neg hs]
    have hsm : 0 ≤ s * 10 ^ p := mul_nonneg (by omega) (le_of_lt hm)
    rw [Int.natAbs_of_nonneg (by omega)]
    have he : s * 10 ^ p + f = f + 10 ^ p * s := by ring
    rw [he, Int.add_mul_emod_self_left]

lemma emod_999999999 {p : ℕ} (hp : p ≤ 9) :
    (999999999 : ℤ) % 10 ^ p = 10 ^ p - 1 := by
  interval_cases p <;> decide

lemma makeDateTime64Row_sentinel_max (lut : DateLUTT) (p : ℕ)
    (year month day hour minute second fraction : FVal)
    (hne : minDateTime lut ≠ maxDateTime lut)
    (h : dateTime lut year month day hour minute second = maxDateTime lut) :
    makeDateTime64Row lut p year month day hour minute second fraction =
      decimalFromComponents (maxDateTime lut) 999999999 p := by
  simp only [makeDateTime64Row, h, if_true,
    if_neg (show ¬ (maxDateTime lut = minDateTime lut) from fun he => hne he.symm)]
  show decimalFromComponents (maxDateTime lut) (qtrunc (999999999 : ℚ)) p =
    decimalFromComponents (maxDateTime lut) 999999999 p
  rw [show qtrunc (999999999 : ℚ) = 999999999 from by decide]

lemma makeDateTime64Row_sentinel_min (lut : DateLUTT) (p : ℕ)
    (year month day hour minute second fraction : FVal)
    (h : dateTime lut year month day hour minute second = minDateTime lut) :
    makeDateTime64Row lut p year month day hour minute second fraction =
      decimalFromComponents (minDateTime lut) 0 p := by
  simp only [makeDateTime64Row, h, if_true]
  show decimalFromComponents (minDateTime lut) (qtrunc (0 : ℚ)) p =
    decimalFromComponents (minDateTime lut) 0 p
  rw [show qtrunc (0 : ℚ) = 0 from by decide]

/-- Claim C3: in makeDateTime64, a row whose base-seconds is the maximum
sentinel packs the maximal representable fraction for the chosen precision,
10^precision - 1 (0 at precision 0, 999999999 at precision 9) — the hard-coded
999999999 contributes modulo the scale; a row whose base-seconds is the minimum
sentinel packs fraction 0. -/
theorem C3_makeDateTime64_sentinel_fraction (lut : DateLUTT) (precision : ℕ)
    (hp : precision ≤ 9)
    (year month day hour minute second fraction : FVal)
    (hne : minDateTime lut ≠ maxDateTime lut) :
    (dateTime lut year month day hour minute second = maxDateTime lut →
      packedFraction
        (makeDateTime64Row lut precision year month day hour minute second fraction)
        precision = 10 ^ precision - 1) ∧
    (dateTime lut year month day hour minute second = minDateTime lut →
      packedFraction
        (makeDateTime64Row lut precision year month day hour minute second fraction)
        precision = 0) := by
  constructor
  · intro h
    rw [makeDateTime64Row_sentinel_max lut precision year month day hour minute second
        fraction hne h]
    rw [packedFraction_pack _ _ _ (by norm_num), emod_999999999 hp]
  · intro h
    rw [makeDateTime64Row_sentinel_min lut precision year month day hour minute second
        fraction h]
    rw [packedFraction_pack _ _ _ le_rfl]
    simp

/-- Witness for C3: with the concrete Gregorian service at precision 3, a year
above the global maximum (3000) hits the maximum sentinel and packs fraction
999, and a year below the global minimum (1000) hits the minimum sentinel and
packs fraction 0. -/
theorem C3_makeDateTime64_sentinel_fraction_witness :
    packedFraction (makeDateTime64Row gregLUT 3 (.num 3000) (.num 1) (.num 1)
      (.num 0) (.num 0) (.num 0) (.num 5)) 3 = 999 ∧
    packedFraction (makeDateTime64Row gregLUT 3 (.num 1000) (.num 1) (.num 1)
      (.num 0) (.num 0) (.num 0) (.num 5)) 3 = 0 := by
  constructor
  · have h := (C3_makeDateTime64_sentinel_fraction gregLUT 3 (by norm_num)
      (.num 3000) (.num 1) (.num 1) (.num 0) (.num 0) (.num 0) (.num 5)
      (by decide)).1 (by decide)
    rw [h]; decide
  · exact (C3_makeDateTime64_sentinel_fraction gregLUT 3 (by norm_num)
      (.num 1000) (.num 1) (.num 1) (.num 0) (.num 0) (.num 0) (.num 5)
      (by decide)).2 (by decide)

/-- Claim C4: for every finite input row of YYYYMMDDhhmmssToDateTime64 the
fraction is the residue (input minus its rounded integer part) scaled by
10^precision and rounded to nearest, and this residue-derived fraction is
packed with the (possibly sentinel-clamped) seconds from `dateTime`
unconditionally — the minimum/maximum-sentinel fraction overrides of
makeDateTime64 are never applied (the right-hand side holds even when the
seconds value is a sentinel). -/
theorem C4_yyyymmddhhmmss64_residue_fraction (lut : DateLUTT) (precision : ℕ)
    (q : ℚ) :
    yyyymmddhhmmssToDateTime64Row lut precision (.num q) =
      .ok (decimalFromComponents
        (dateTime lut
          (.num ((((llround q).tdiv 1000000).tdiv 10000 : ℤ) : ℚ))
          (.num (((((llround q).tdiv 1000000).tdiv 100).tmod 100 : ℤ) : ℚ))
          (.num ((((llround q).tdiv 1000000).tmod 100 : ℤ) : ℚ))
          (.num ((((llround q).tmod 1000000).tdiv 10000 : ℤ) : ℚ))
          (.num (((((llround q).tmod 1000000).tdiv 100).tmod 100 : ℤ) : ℚ))
          (.num ((((llround q).tmod 1000000).tmod 100 : ℤ) : ℚ)))
        (llround ((q - (llround q : ℚ)) * 10 ^ precision))
        precision) := by
  rfl

lemma qtrunc_maxFraction (p : ℕ) : qtrunc ((10 : ℚ) ^ p - 1) = 10 ^ p - 1 := by
  rw [show ((10 : ℚ) ^ p - 1) = (((10 ^ p - 1 : ℤ)) : ℚ) by push_cast; ring]
  exact qtrunc_intCast _

/-- Claim C8: in makeDateTime64, for every row whose base-seconds is not a
sentinel: a NaN fraction forces the base-seconds to the minimum sentinel and
the fraction to 0; a negative fraction is clamped to 0; a fraction above
10^precision - 1 is clamped to 10^precision - 1; otherwise the (truncated)
fraction is kept; the output is packed as seconds * 10^precision + fraction,
sign-aware for negative seconds (`decimalFromComponents`). -/
theorem C8_makeDateTime64_fraction_clamp (lut : DateLUTT) (precision : ℕ)
    (year month day hour minute second : FVal) (fraction : FVal)
    (hmin : dateTime lut year month day hour minute second ≠ minDateTime lut)
    (hmax : dateTime lut year month day hour minute second ≠ maxDateTime lut) :
    (fraction = .nan →
      makeDateTime64Row lut precision year month day hour minute second fraction =
        decimalFromComponents (minDateTime lut) 0 precision) ∧
    (∀ f : ℚ, fraction = .num f → f < 0 →
      makeDateTime64Row lut precision year month day hour minute second fraction =
        decimalFromComponents (dateTime lut year month day hour minute second)
          0 precision) ∧
    (∀ f : ℚ, fraction = .num f → (10 : ℚ) ^ precision - 1 < f →
      makeDateTime64Row lut precision year month day hour minute second fraction =
        decimalFromComponents (dateTime lut year month day hour minute second)
          (10 ^ precision - 1) precision) ∧
    (∀ f : ℚ, fraction = .num f → 0 ≤ f → f ≤ (10 : ℚ) ^ precision - 1 →
      makeDateTime64Row lut precision year month day hour minute second fraction =
        decimalFromComponents (dateTime lut year month day hour minute second)
          (qtrunc f) precision) := by
  refine ⟨?_, ?_, ?_, ?_⟩
  · rintro rfl
    simp only [makeDateTime64Row]
    rw [if_neg hmin, if_neg hmax, if_pos (show FVal.nan.isNaN = true from rfl)]
    show decimalFromComponents (minDateTime lut) (qtrunc 0) precision = _
    rw [show qtrunc (0 : ℚ) = 0 from by decide]
  · rintro f rfl hneg
    simp only [makeDateTime64Row]
    rw [if_neg hmin, if_neg hmax,
      if_neg (show ¬ ((FVal.num f).isNaN = true) from by simp [FVal.isNaN]),
      if_pos (show flt (.num f) 0 = true from by simp [flt, hneg])]
    show decimalFromComponents (dateTime lut year month day hour minute second)
      (qtrunc 0) precision = _
    rw [show qtrunc (0 : ℚ) = 0 from by decide]
  · rintro f rfl hgt
    have h1 : (1 : ℚ) ≤ 10 ^ precision := one_le_pow₀ (by norm_num)
    simp only [makeDateTime64Row]
    rw [if_neg hmin, if_neg hmax,
      if_neg (show ¬ ((FVal.num f).isNaN = true) from by simp [FVal.isNaN]),
      if_neg (show ¬ (flt (.num f) 0 = true) from by
        simp only [flt, decide_eq_true_eq]; intro hc; linarith),
      if_pos (show fgt (.num f) ((10 : ℚ) ^ precision - 1) = true from by
        simp [fgt, hgt])]
    show decimalFromComponents (dateTime lut year month day hour minute second)
      (qtrunc ((10 : ℚ) ^ precision - 1)) precision = _
    rw [qtrunc_maxFraction]
  · rintro f rfl h0 hle
    simp only [makeDateTime64Row]
    rw [if_neg hmin, if_neg hmax,
      if_neg (show ¬ ((FVal.num f).isNaN = true) from by simp [FVal.isNaN]),
      if_neg (show ¬ (flt (.num f) 0 = true) from by
        simp only [flt, decide_eq_true_eq]; exact not_lt.mpr h0),
      if_neg (show ¬ (fgt (.num f) ((10 : ℚ) ^ precision - 1) = true) from by
        simp only [fgt, decide_eq_true_eq]; exact not_lt.mpr hle)]
    rfl

/-- Witness for C8: the spec's example makeDateTime64(2023,5,15,10,30,45,779)
at precision 3 keeps the in-range fraction 779 and packs 1684146645779. -/
theorem C8_makeDateTime64_fraction_clamp_witness :
    makeDateTime64Row gregLUT 3 (.num 2023) (.num 5) (.num 15)
      (.num 10) (.num 30) (.num 45) (.num 779) = 1684146645779 := by
  have h := (C8_makeDateTime64_fraction_clamp gregLUT 3 (.num 2023) (.num 5)
      (.num 15) (.num 10) (.num 30) (.num 45) (.num 779)
      (by decide) (by decide)).2.2.2 779 rfl (by norm_num) (by norm_num)
  rw [h]; decide


lemma yyyymmddToDateCol_error (tr : DateTraitsT) (makeDayNum : ℤ → ℤ → ℤ → ℤ)
    (xs : List FVal) (h : ∃ x ∈ xs, x.isFinite = false) :
    yyyymmddToDateCol tr makeDayNum xs = .error (finiteErrMsg tr.yyyymmddName) := by
  induction xs with
  | nil => simp at h
  | cons x xs ih =>
    rcases h with ⟨y, hy, hnf⟩
    rcases List.mem_cons.mp hy with rfl | hmem
    · cases y with
      | num q => simp [FVal.isFinite] at hnf
      | nan => rfl
      | posInf => rfl
      | negInf => rfl
    · cases x with
      | num q => simp only [yyyymmddToDateCol, yyyymmddToDateRow, ih ⟨y, hmem, hnf⟩]
      | nan => rfl
      | posInf => rfl
      | negInf => rfl

lemma yyyymmddToDateCol_ok (tr : DateTraitsT) (makeDayNum : ℤ → ℤ → ℤ → ℤ)
    (xs : List FVal) (h : ∀ x ∈ xs, x.isFinite = true) :
    ∃ ys, yyyymmddToDateCol tr makeDayNum xs = .ok ys := by
  induction xs with
  | nil => exact ⟨[], rfl⟩
  | cons x xs ih =>
    obtain ⟨ys, hys⟩ := ih fun y hy => h y (List.mem_cons_of_mem x hy)
    cases x with
    | num q =>
      obtain ⟨v, hv⟩ : ∃ v, yyyymmddToDateRow tr makeDayNum (.num q) = .ok v := ⟨_, rfl⟩
      refine ⟨v :: ys, ?_⟩
      simp only [yyyymmddToDateCol, hv, hys]
    | nan => simpa [FVal.isFinite] using h _ (List.mem_cons_self _ _)
    | posInf => simpa [FVal.isFinite] using h _ (List.mem_cons_self _ _)
    | negInf => simpa [FVal.isFinite] using h _ (List.mem_cons_self _ _)

lemma yyyymmddhhmmssToDateTimeCol_error (lut : DateLUTT)
    (xs : List FVal) (h : ∃ x ∈ xs, x.isFinite = false) :
    yyyymmddhhmmssToDateTimeCol lut xs =
      .error (finiteErrMsg "YYYYMMDDhhmmssToDateTime") := by
  induction xs with
  | nil => simp at h
  | cons x xs ih =>
    rcases h with ⟨y, hy, hnf⟩
    rcases List.mem_cons.mp hy with rfl | hmem
    · cases y with
      | num q => simp [FVal.isFinite] at hnf
      | nan => rfl
      | posInf => rfl
      | negInf => rfl
    · cases x with
      | num q =>
        simp only [yyyymmddhhmmssToDateTimeCol, yyyymmddhhmmssToDateTimeRow,
          ih ⟨y, hmem, hnf⟩]
      | nan => rfl
      | posInf => rfl
      | negInf => rfl

lemma yyyymmddhhmmssToDateTimeCol_ok (lut : DateLUTT)
    (xs : List FVal) (h : ∀ x ∈ xs, x.isFinite = true) :
    ∃ ys, yyyymmddhhmmssToDateTimeCol lut xs = .ok ys := by
  induction xs with
  | nil => exact ⟨[], rfl⟩
  | cons x xs ih =>
    obtain ⟨ys, hys⟩ := ih fun y hy => h y (List.mem_cons_of_mem x hy)
    cases x with
    | num q =>
      obtain ⟨v, hv⟩ : ∃ v, yyyymmddhhmmssToDateTimeRow lut (.num q) = .ok v := ⟨_, rfl⟩
      refine ⟨v :: ys, ?_⟩
      simp only [yyyymmddhhmmssToDateTimeCol, hv, hys]
    | nan => simpa [FVal.isFinite] using h _ (List.mem_cons_self _ _)
    | posInf => simpa [FVal.isFinite] using h _ (List.mem_cons_self _ _)
    | negInf => simpa [FVal.isFinite] using h _ (List.mem_cons_self _ _)

lemma yyyymmddhhmmssToDateTime64Col_error (lut : DateLUTT) (precision : ℕ)
    (xs : List FVal) (h : ∃ x ∈ xs, x.isFinite = false) :
    yyyymmddhhmmssToDateTime64Col lut precision xs =
      .error (finiteErrMsg "YYYYMMDDhhmmssToDateTime64") := by
  induction xs with
  | nil => simp at h
  | cons x xs ih =>
    rcases h with ⟨y, hy, hnf⟩
    rcases List.mem_cons.mp hy with rfl | hmem
    · cases y with
      | num q => simp [FVal.isFinite] at hnf
      | nan => rfl
      | posInf => rfl
      | negInf => rfl
    · cases x with
      | num q =>
        simp only [yyyymmddhhmmssToDateTime64Col, yyyymmddhhmmssToDateTime64Row,
          ih ⟨y, hmem, hnf⟩]
      | nan => rfl
      | posInf => rfl
      | negInf => rfl

lemma yyyymmddhhmmssToDateTime64Col_ok (lut : DateLUTT) (precision : ℕ)
    (xs : List FVal) (h : ∀ x ∈ xs, x.isFinite = true) :
    ∃ ys, yyyymmddhhmmssToDateTime64Col lut precision xs = .ok ys := by
  induction xs with
  | nil => exact ⟨[], rfl⟩
  | cons x xs ih =>
    obtain ⟨ys, hys⟩ := ih fun y hy => h y (List.mem_cons_of_mem x hy)
    cases x with
    | num q =>
      obtain ⟨v, hv⟩ : ∃ v, yyyymmddhhmmssToDateTime64Row lut precision (.num q) = .ok v :=
        ⟨_, rfl⟩
      refine ⟨v :: ys, ?_⟩
      simp only [yyyymmddhhmmssToDateTime64Col, hv, hys]
    | nan => simpa [FVal.isFinite] using h _ (List.mem_cons_self _ _)
    | posInf => simpa [FVal.isFinite] using h _ (List.mem_cons_self _ _)
    | negInf => simpa [FVal.isFinite] using h _ (List.mem_cons_self _ _)

/-- Claim C5: for each packed-value function (YYYYMMDDToDate,
YYYYMMDDToDate32 — via the traits parameter — YYYYMMDDhhmmssToDateTime,
YYYYMMDDhhmmssToDateTime64): if some input row is infinite or NaN, the whole
call fails with the invalid-argument error naming the function and no output
column is produced; if every row is finite the call never fails, whatever the
decomposed field values are. -/
theorem C5_packed_nonfinite_fails_finite_succeeds (tr : DateTraitsT)
    (makeDayNum : ℤ → ℤ → ℤ → ℤ) (lut : DateLUTT) (precision : ℕ)
    (xs : List FVal) :
    ((∃ x ∈ xs, x.isFinite = false) →
      yyyymmddToDateCol tr makeDayNum xs = .error (finiteErrMsg tr.yyyymmddName) ∧
      yyyymmddhhmmssToDateTimeCol lut xs =
        .error (finiteErrMsg "YYYYMMDDhhmmssToDateTime") ∧
      yyyymmddhhmmssToDateTime64Col lut precision xs =
        .error (finiteErrMsg "YYYYMMDDhhmmssToDateTime64")) ∧
    ((∀ x ∈ xs, x.isFinite = true) →
      (∃ ys, yyyymmddToDateCol tr makeDayNum xs = .ok ys) ∧
      (∃ ys, yyyymmddhhmmssToDateTimeCol lut xs = .ok ys) ∧
      (∃ ys, yyyymmddhhmmssToDateTime64Col lut precision xs = .ok ys)) := by
  constructor
  · intro h
    exact ⟨yyyymmddToDateCol_error tr makeDayNum xs h,
      yyyymmddhhmmssToDateTimeCol_error lut xs h,
      yyyymmddhhmmssToDateTime64Col_error lut precision xs h⟩
  · intro h
    exact ⟨yyyymmddToDateCol_ok tr makeDayNum xs h,
      yyyymmddhhmmssToDateTimeCol_ok lut xs h,
      yyyymmddhhmmssToDateTime64Col_ok lut precision xs h⟩

/-- Witness for C5: a batch containing a NaN row fails all three calls with
the function-naming message, and an all-finite batch with a nonsense field
row (month 13) still succeeds on all three. -/
theorem C5_packed_nonfinite_fails_finite_succeeds_witness :
    (yyyymmddToDateCol DateTraits gregDayNum [.num 20230911, .nan] =
        .error "Argument for function YYYYMMDDToDate must be finite" ∧
      yyyymmddhhmmssToDateTimeCol gregLUT [.num 20230911, .nan] =
        .error "Argument for function YYYYMMDDhhmmssToDateTime must be finite" ∧
      yyyymmddhhmmssToDateTime64Col gregLUT 3 [.num 20230911, .nan] =
        .error "Argument for function YYYYMMDDhhmmssToDateTime64 must be finite") ∧
    ((∃ ys, yyyymmddToDateCol DateTraits gregDayNum [.num 20231301] = .ok ys) ∧
      (∃ ys, yyyymmddhhmmssToDateTimeCol gregLUT [.num 20231301000000] = .ok ys) ∧
      (∃ ys, yyyymmddhhmmssToDateTime64Col gregLUT 3 [.num 20231301000000] = .ok ys)) := by
  constructor
  · exact (C5_packed_nonfinite_fails_finite_succeeds DateTraits gregDayNum gregLUT 3
      [.num 20230911, .nan]).1 ⟨.nan, by simp, rfl⟩
  · have hfin1 : ∀ x ∈ [FVal.num 20231301], x.isFinite = true := by
      intro x hx
      simp only [List.mem_singleton] at hx
      subst hx
      rfl
    have hfin2 : ∀ x ∈ [FVal.num 20231301000000], x.isFinite = true := by
      intro x hx
      simp only [List.mem_singleton] at hx
      subst hx
      rfl
    exact ⟨((C5_packed_nonfinite_fails_finite_succeeds DateTraits gregDayNum gregLUT 3
        [.num 20231301]).2 hfin1).1,
      ((C5_packed_nonfinite_fails_finite_succeeds DateTraits gregDayNum gregLUT 3
        [.num 20231301000000]).2 hfin2).2.1,
      ((C5_packed_nonfinite_fails_finite_succeeds DateTraits gregDayNum gregLUT 3
        [.num 20231301000000]).2 hfin2).2.2⟩

/-- The well-formedness condition of a (year, dayofyear) row, as the spec
states it: both fields finite, year in the type's range, day-of-year in
[1,365]. -/
def inRangeYD (tr : DateTraitsT) (year dayofyear : FVal) : Prop :=
  ∃ qy qdoy : ℚ, year = .num qy ∧ dayofyear = .num qdoy ∧
    (tr.minYear : ℚ) ≤ qy ∧ qy ≤ (tr.maxYear : ℚ) ∧ 1 ≤ qdoy ∧ qdoy ≤ 365

lemma ydGuard_iff (tr : DateTraitsT) (year dayofyear : FVal) :
    (fge year (tr.minYear : ℚ) && fle year (tr.maxYear : ℚ) &&
     fge dayofyear 1 && fle dayofyear 365) = true ↔ inRangeYD tr year dayofyear := by
  cases year <;> cases dayofyear <;> simp [fge, fle, inRangeYD, and_assoc]

/-- Counterexample to claim C7 as stated: for the narrow makeDate, year 2149
is in the type's range and day-of-year 200 is in [1,365], yet
makeDate(2149, 200) = 0 (the computed day-count 65578 exceeds the type's
maximum day-count 65535 and saturates to 0) while
makeDate(2149, 1, 1) + 200 - 1 = 65578; the claimed equality fails. -/
theorem C7_counterexample :
    ((DateTraits.minYear : ℚ) ≤ 2149 ∧ (2149 : ℚ) ≤ (DateTraits.maxYear : ℚ) ∧
      (1 : ℚ) ≤ 200 ∧ (200 : ℚ) ≤ 365) ∧
    makeDateYD DateTraits gregDayNum (.num 2149) (.num 200) = 0 ∧
    makeDateYMD DateTraits gregDayNum (.num 2149) (.num 1) (.num 1) + 200 - 1 = 65578 ∧
    makeDateYD DateTraits gregDayNum (.num 2149) (.num 200) ≠
      makeDateYMD DateTraits gregDayNum (.num 2149) (.num 1) (.num 1) + 200 - 1 := by
  decide

/-- Claim C7 (amended): for every row of the two-argument makeDate / makeDate32
with year in the type's range, dayofyear in [1,365], and the computed day-count
makeDayNum(y,1,1) + dayofyear - 1 not exceeding the type's maximum day-count,
makeDate(y, doy) equals makeDate(y,1,1) + doy - 1 (the day-number of January
1st of that year plus doy - 1, doy truncated toward zero); any dayofyear
outside [1,365] — including 366 in a leap year — or out-of-range year yields 0;
and when the computed day-count exceeds the type's maximum the output is
likewise 0. -/
theorem C7_makeDate_dayofyear_amended (tr : DateTraitsT)
    (makeDayNum : ℤ → ℤ → ℤ → ℤ) :
    (∀ qy qdoy : ℚ, (tr.minYear : ℚ) ≤ qy → qy ≤ (tr.maxYear : ℚ) →
      1 ≤ qdoy → qdoy ≤ 365 →
      makeDayNum (qtrunc qy) 1 1 + qtrunc qdoy - 1 ≤ maxDaysSinceEpoch tr makeDayNum →
      makeDateYD tr makeDayNum (.num qy) (.num qdoy) =
        makeDateYMD tr makeDayNum (.num qy) (.num 1) (.num 1) + qtrunc qdoy - 1) ∧
    (∀ year dayofyear : FVal, ¬ inRangeYD tr year dayofyear →
      makeDateYD tr makeDayNum year dayofyear = 0) ∧
    (∀ qy qdoy : ℚ, (tr.minYear : ℚ) ≤ qy → qy ≤ (tr.maxYear : ℚ) →
      1 ≤ qdoy → qdoy ≤ 365 →
      maxDaysSinceEpoch tr makeDayNum < makeDayNum (qtrunc qy) 1 1 + qtrunc qdoy - 1 →
      makeDateYD tr makeDayNum (.num qy) (.num qdoy) = 0) := by
  refine ⟨?_, ?_, ?_⟩
  · intro qy qdoy h1 h2 h3 h4 hsat
    have hq0 : (0 : ℚ) ≤ qdoy := le_trans (by norm_num) h3
    have hd1 : 1 ≤ qtrunc qdoy := le_qtrunc hq0 (by exact_mod_cast h3)
    have hyd : makeDayNum (qtrunc qy) 1 1 ≤ maxDaysSinceEpoch tr makeDayNum := by omega
    have hYMD : makeDateYMD tr makeDayNum (.num qy) (.num 1) (.num 1) =
        makeDayNum (qtrunc qy) 1 1 := by
      have hg : (fge (.num qy) (tr.minYear : ℚ) && fle (.num qy) (tr.maxYear : ℚ) &&
          fge (.num 1) 1 && fle (.num 1) 12 &&
          fge (.num 1) 1 && fle (.num 1) 31) = true := by
        simp [fge, fle, h1, h2]
      simp only [makeDateYMD, hg, if_true, FVal.trunc]
      rw [show qtrunc (1 : ℚ) = 1 from by decide]
      exact if_pos hyd
    have hg : (fge (.num qy) (tr.minYear : ℚ) && fle (.num qy) (tr.maxYear : ℚ) &&
        fge (.num qdoy) 1 && fle (.num qdoy) 365) = true := by
      simp [fge, fle, h1, h2, h3, h4]
    simp only [makeDateYD, hg, if_true, FVal.trunc]
    rw [if_pos hsat, hYMD]
  · intro year dayofyear hn
    have hg : (fge year (tr.minYear : ℚ) && fle year (tr.maxYear : ℚ) &&
        fge dayofyear 1 && fle dayofyear 365) = false := by
      rw [← Bool.not_eq_true, ydGuard_iff]; exact hn
    simp only [makeDateYD, hg, Bool.false_eq_true, if_false]
  · intro qy qdoy h1 h2 h3 h4 hsat
    have hg : (fge (.num qy) (tr.minYear : ℚ) && fle (.num qy) (tr.maxYear : ℚ) &&
        fge (.num qdoy) 1 && fle (.num qdoy) 365) = true := by
      simp [fge, fle, h1, h2, h3, h4]
    simp only [makeDateYD, hg, if_true, FVal.trunc]
    exact if_neg (by omega)

/-- Witness for the amended C7: the spec's example makeDate(2023, 42) equals
makeDate(2023,1,1) + 41 = 19399 (2023-02-11). -/
theorem C7_makeDate_dayofyear_amended_witness :
    makeDateYD DateTraits gregDayNum (.num 2023) (.num 42) = 19399 := by
  have h := (C7_makeDate_dayofyear_amended DateTraits gregDayNum).1 2023 42
    (by decide) (by decide) (by norm_num) (by norm_num) (by decide)
  rw [h]; decide

lemma dateTimeBad_num_bounds (lut : DateLUTT) {qy qmo qd qh qmi qs : ℚ}
    (h1 : (lut.minYear : ℚ) ≤ qy) (hmo1 : 1 ≤ qmo) (hmo2 : qmo ≤ 12)
    (hd1 : 1 ≤ qd) (hd2 : qd ≤ 31) (hh1 : 0 ≤ qh) (hh2 : qh ≤ 99)
    (hmi1 : 0 ≤ qmi) (hmi2 : qmi ≤ 99) (hs1 : 0 ≤ qs) (hs2 : qs ≤ 99) :
    dateTimeBad lut (.num qy) (.num qmo) (.num qd) (.num qh) (.num qmi) (.num qs)
      = false := by
  simp [dateTimeBad, FVal.isNaN, flt, fgt, not_lt.mpr h1, not_lt.mpr hmo1,
    not_lt.mpr hmo2, not_lt.mpr hd1, not_lt.mpr hd2, not_lt.mpr hh1, not_lt.mpr hh2,
    not_lt.mpr hmi1, not_lt.mpr hmi2, not_lt.mpr hs1, not_lt.mpr hs2]

/-- Claim C9: for every field-based constructor (makeDate, makeDate32 via the
traits parameter; makeDateTime and makeDateTime64 via the shared `dateTime`
kernel and their row functions), an in-range but non-integral field value is
truncated toward zero before being passed to the Calendar Service, not rounded
to nearest: the result equals the one for the truncated integral fields. -/
theorem C9_truncation_not_rounding (tr : DateTraitsT)
    (makeDayNum : ℤ → ℤ → ℤ → ℤ) (lut : DateLUTT) (precision : ℕ) (fraction : FVal)
    (htr : 0 ≤ tr.minYear)
    (qy qmo qd qh qmi qs : ℚ)
    (hty1 : (tr.minYear : ℚ) ≤ qy) (hty2 : qy ≤ (tr.maxYear : ℚ))
    (hly1 : (lut.minYear : ℚ) ≤ qy) (hly2 : qy ≤ (lut.maxYear : ℚ))
    (hmo1 : 1 ≤ qmo) (hmo2 : qmo ≤ 12) (hd1 : 1 ≤ qd) (hd2 : qd ≤ 31)
    (hh1 : 0 ≤ qh) (hh2 : qh ≤ 99) (hmi1 : 0 ≤ qmi) (hmi2 : qmi ≤ 99)
    (hs1 : 0 ≤ qs) (hs2 : qs ≤ 99) :
    makeDateYMD tr makeDayNum (.num qy) (.num qmo) (.num qd) =
      makeDateYMD tr makeDayNum (.num ((qtrunc qy : ℤ) : ℚ))
        (.num ((qtrunc qmo : ℤ) : ℚ)) (.num ((qtrunc qd : ℤ) : ℚ)) ∧
    dateTime lut (.num qy) (.num qmo) (.num qd) (.num qh) (.num qmi) (.num qs) =
      dateTime lut (.num ((qtrunc qy : ℤ) : ℚ)) (.num ((qtrunc qmo : ℤ) : ℚ))
        (.num ((qtrunc qd : ℤ) : ℚ)) (.num ((qtrunc qh : ℤ) : ℚ))
        (.num ((qtrunc qmi : ℤ) : ℚ)) (.num ((qtrunc qs : ℤ) : ℚ)) ∧
    makeDateTimeRow lut (.num qy) (.num qmo) (.num qd) (.num qh) (.num qmi) (.num qs) =
      makeDateTimeRow lut (.num ((qtrunc qy : ℤ) : ℚ)) (.num ((qtrunc qmo : ℤ) : ℚ))
        (.num ((qtrunc qd : ℤ) : ℚ)) (.num ((qtrunc qh : ℤ) : ℚ))
        (.num ((qtrunc qmi : ℤ) : ℚ)) (.num ((qtrunc qs : ℤ) : ℚ)) ∧
    makeDateTime64Row lut precision (.num qy) (.num qmo) (.num qd)
        (.num qh) (.num qmi) (.num qs) fraction =
      makeDateTime64Row lut precision (.num ((qtrunc qy : ℤ) : ℚ))
        (.num ((qtrunc qmo : ℤ) : ℚ)) (.num ((qtrunc qd : ℤ) : ℚ))
        (.num ((qtrunc qh : ℤ) : ℚ)) (.num ((qtrunc qmi : ℤ) : ℚ))
        (.num ((qtrunc qs : ℤ) : ℚ)) fraction := by
  have hy0 : (0 : ℚ) ≤ qy := le_trans (by exact_mod_cast htr) hty1
  have hmo0 : (0 : ℚ) ≤ qmo := le_trans (by norm_num) hmo1
  have hd0 : (0 : ℚ) ≤ qd := le_trans (by norm_num) hd1
  have ity1 : tr.minYear ≤ qtrunc qy := le_qtrunc hy0 hty1
  have ity2 : qtrunc qy ≤ tr.maxYear := qtrunc_le hy0 hty2
  have ily1 : lut.minYear ≤ qtrunc qy := le_qtrunc hy0 hly1
  have ily2 : qtrunc qy ≤ lut.maxYear := qtrunc_le hy0 hly2
  have imo1 : 1 ≤ qtrunc qmo := le_qtrunc hmo0 (by exact_mod_cast hmo1)
  have imo2 : qtrunc qmo ≤ 12 := qtrunc_le hmo0 (by exact_mod_cast hmo2)
  have id1 : 1 ≤ qtrunc qd := le_qtrunc hd0 (by exact_mod_cast hd1)
  have id2 : qtrunc qd ≤ 31 := qtrunc_le hd0 (by exact_mod_cast hd2)
  have ih1 : 0 ≤ qtrunc qh := le_qtrunc hh1 (by exact_mod_cast hh1)
  have ih2 : qtrunc qh ≤ 99 := qtrunc_le hh1 (by exact_mod_cast hh2)
  have imi1 : 0 ≤ qtrunc qmi := le_qtrunc hmi1 (by exact_mod_cast hmi1)
  have imi2 : qtrunc qmi ≤ 99 := qtrunc_le hmi1 (by exact_mod_cast hmi2)
  have is1 : 0 ≤ qtrunc qs := le_qtrunc hs1 (by exact_mod_cast hs1)
  have is2 : qtrunc qs ≤ 99 := qtrunc_le hs1 (by exact_mod_cast hs2)
  have cly1 : (lut.minYear : ℚ) ≤ ((qtrunc qy : ℤ) : ℚ) := by exact_mod_cast ily1
  have cly2 : ((qtrunc qy : ℤ) : ℚ) ≤ (lut.maxYear : ℚ) := by exact_mod_cast ily2
  have cmo1 : (1 : ℚ) ≤ ((qtrunc qmo : ℤ) : ℚ) := by exact_mod_cast imo1
  have cmo2 : ((qtrunc qmo : ℤ) : ℚ) ≤ 12 := by exact_mod_cast imo2
  have cd1 : (1 : ℚ) ≤ ((qtrunc qd : ℤ) : ℚ) := by exact_mod_cast id1
  have cd2 : ((qtrunc qd : ℤ) : ℚ) ≤ 31 := by exact_mod_cast id2
  have ch1 : (0 : ℚ) ≤ ((qtrunc qh : ℤ) : ℚ) := by exact_mod_cast ih1
  have ch2 : ((qtrunc qh : ℤ) : ℚ) ≤ 99 := by exact_mod_cast ih2
  have cmi1 : (0 : ℚ) ≤ ((qtrunc qmi : ℤ) : ℚ) := by exact_mod_cast imi1
  have cmi2 : ((qtrunc qmi : ℤ) : ℚ) ≤ 99 := by exact_mod_cast imi2
  have cs1 : (0 : ℚ) ≤ ((qtrunc qs : ℤ) : ℚ) := by exact_mod_cast is1
  have cs2 : ((qtrunc qs : ℤ) : ℚ) ≤ 99 := by exact_mod_cast is2
  have hgL : (fge (.num qy) (tr.minYear : ℚ) && fle (.num qy) (tr.maxYear : ℚ) &&
      fge (.num qmo) 1 && fle (.num qmo) 12 &&
      fge (.num qd) 1 && fle (.num qd) 31) = true := by
    simp [fge, fle, hty1, hty2, hmo1, hmo2, hd1, hd2]
  have hgR : (fge (.num ((qtrunc qy : ℤ) : ℚ)) (tr.minYear : ℚ) &&
      fle (.num ((qtrunc qy : ℤ) : ℚ)) (tr.maxYear : ℚ) &&
      fge (.num ((qtrunc qmo : ℤ) : ℚ)) 1 && fle (.num ((qtrunc qmo : ℤ) : ℚ)) 12 &&
      fge (.num ((qtrunc qd : ℤ) : ℚ)) 1 && fle (.num ((qtrunc qd : ℤ) : ℚ)) 31) = true := by
    simp only [fge, fle, Bool.and_eq_true, decide_eq_true_eq]
    refine ⟨⟨⟨⟨⟨?_, ?_⟩, ?_⟩, ?_⟩, ?_⟩, ?_⟩
    · exact_mod_cast ity1
    · exact_mod_cast ity2
    · exact cmo1
    · exact cmo2
    · exact cd1
    · exact cd2
  have hymd : makeDateYMD tr makeDayNum (.num qy) (.num qmo) (.num qd) =
      makeDateYMD tr makeDayNum (.num ((qtrunc qy : ℤ) : ℚ))
        (.num ((qtrunc qmo : ℤ) : ℚ)) (.num ((qtrunc qd : ℤ) : ℚ)) := by
    simp only [makeDateYMD, hgL, hgR, if_true, FVal.trunc, qtrunc_intCast]
  have hbL := dateTimeBad_num_bounds lut hly1 hmo1 hmo2 hd1 hd2 hh1 hh2 hmi1 hmi2 hs1 hs2
  have hbR := dateTimeBad_num_bounds lut cly1 cmo1 cmo2 cd1 cd2 ch1 ch2 cmi1 cmi2 cs1 cs2
  have hgtL : fgt (.num qy) ((lut.maxYear : ℤ) : ℚ) = false := by
    simp [fgt, not_lt.mpr hly2]
  have hgtR : fgt (.num ((qtrunc qy : ℤ) : ℚ)) ((lut.maxYear : ℤ) : ℚ) = false := by
    simp [fgt, not_lt.mpr cly2]
  have hdt : dateTime lut (.num qy) (.num qmo) (.num qd)
      (.num qh) (.num qmi) (.num qs) =
      dateTime lut (.num ((qtrunc qy : ℤ) : ℚ)) (.num ((qtrunc qmo : ℤ) : ℚ))
        (.num ((qtrunc qd : ℤ) : ℚ)) (.num ((qtrunc qh : ℤ) : ℚ))
        (.num ((qtrunc qmi : ℤ) : ℚ)) (.num ((qtrunc qs : ℤ) : ℚ)) := by
    simp only [dateTime, hbL, hbR, hgtL, hgtR, Bool.false_eq_true, if_false,
      FVal.trunc, qtrunc_intCast]
  refine ⟨hymd, hdt, ?_, ?_⟩
  · simp only [makeDateTimeRow, hdt]
  · simp only [makeDateTime64Row, hdt]

/-- Witness for C9: makeDate(2023, 2.9, 28) returns the same value as
makeDate(2023, 2, 28) — the month is truncated, not rounded to 3. -/
theorem C9_truncation_not_rounding_witness :
    makeDateYMD DateTraits gregDayNum (.num 2023) (.num (mkRat 29 10)) (.num 28) =
      makeDateYMD DateTraits gregDayNum (.num 2023) (.num 2) (.num 28) := by
  have h := (C9_truncation_not_rounding DateTraits gregDayNum gregLUT 3 (.num 0)
    (by decide)
    2023 (mkRat 29 10) 28 17 12 (mkRat 599 10)
    (by decide) (by decide) (by decide) (by decide)
    (by decide) (by decide) (by decide) (by decide)
    (by decide) (by decide) (by decide) (by decide)
    (by decide) (by decide)).1
  rw [h, show ((qtrunc (2023 : ℚ) : ℤ) : ℚ) = 2023 from by decide,
    show ((qtrunc (mkRat 29 10) : ℤ) : ℚ) = 2 from by decide,
    show ((qtrunc (28 : ℚ) : ℤ) : ℚ) = 28 from by decide]

lemma half_eq : half = 1 / 2 := by
  rw [half, Rat.mkRat_eq_divInt, Rat.divInt_eq_div]
  norm_num

lemma llround_eq_qfloor_add_one {q : ℚ} (h : half < q - (qfloor q : ℚ)) :
    llround q = qfloor q + 1 := by
  rw [qfloor_eq_floor, half_eq] at h
  have hfl : (⌊q⌋ : ℚ) ≤ q := Int.floor_le q
  have hfu : q < ⌊q⌋ + 1 := Int.lt_floor_add_one q
  unfold llround
  by_cases h0 : 0 ≤ q
  · rw [if_pos h0, qfloor_eq_floor, qfloor_eq_floor, half_eq]
    rw [Int.floor_eq_iff]
    constructor
    · push_cast
      linarith
    · push_cast
      linarith
  · rw [if_neg h0, qfloor_eq_floor, qfloor_eq_floor, half_eq]
    rw [show -⌊-q + 1/2⌋ = ⌊q⌋ + 1 ↔ ⌊-q + 1/2⌋ = -(⌊q⌋ + 1) by omega]
    rw [Int.floor_eq_iff]
    constructor
    · push_cast
      linarith
    · push_cast
      linarith

lemma llround_nonpos {q : ℚ} (h : q ≤ 0) : llround q ≤ 0 := by
  by_cases h0 : 0 ≤ q
  · have hq : q = 0 := le_antisymm h h0
    subst hq
    unfold llround
    rw [if_pos le_rfl, qfloor_eq_floor, half_eq]
    have hf : ⌊(0 : ℚ) + 1 / 2⌋ = 0 := by
      rw [Int.floor_eq_iff]
      constructor
      · norm_num
      · norm_num
    omega
  · unfold llround
    rw [if_neg h0]
    have h1 : (0 : ℚ) ≤ -q + half := by
      have hh : half = 1 / 2 := half_eq
      linarith
    have h2 : 0 ≤ qfloor (-q + half) := by
      rw [qfloor_eq_floor]
      exact Int.floor_nonneg.mpr h1
    omega

instance {ε α : Type} [DecidableEq ε] [DecidableEq α] : DecidableEq (Except ε α) := fun x y =>
  match x, y with
  | .error a, .error b =>
    if h : a = b then .isTrue (congrArg Except.error h)
    else .isFalse (fun he => h (Except.error.inj he))
  | .ok a, .ok b =>
    if h : a = b then .isTrue (congrArg Except.ok h)
    else .isFalse (fun he => h (Except.ok.inj he))
  | .error _, .ok _ => .isFalse (fun he => Except.noConfusion he)
  | .ok _, .error _ => .isFalse (fun he => Except.noConfusion he)

/-- Counterexample to claim C10 as stated: at precision 0 the input
20230911131415.6 (here 20230911131415 + 3/5) has fractional part 3/5 above one
half and a negative residue -2/5, yet the packed fraction
llround(-2/5 * 10^0) = 0 is not negative: the row packs fraction 0. -/
theorem C10_counterexample :
    half < ((20230911131415 : ℚ) + mkRat 3 5) -
      (qfloor ((20230911131415 : ℚ) + mkRat 3 5) : ℚ) ∧
    ((20230911131415 : ℚ) + mkRat 3 5) -
      (llround ((20230911131415 : ℚ) + mkRat 3 5) : ℚ) < 0 ∧
    llround ((((20230911131415 : ℚ) + mkRat 3 5) -
      (llround ((20230911131415 : ℚ) + mkRat 3 5) : ℚ)) * 10 ^ (0 : ℕ)) = 0 ∧
    ¬ llround ((((20230911131415 : ℚ) + mkRat 3 5) -
      (llround ((20230911131415 : ℚ) + mkRat 3 5) : ℚ)) * 10 ^ (0 : ℕ)) < 0 ∧
    yyyymmddhhmmssToDateTime64Row gregLUT 0
        (.num ((20230911131415 : ℚ) + mkRat 3 5)) =
      .ok (decimalFromComponents (dateTime gregLUT (.num 2023) (.num 9) (.num 11)
        (.num 13) (.num 14) (.num 16)) 0 0) := by
  with_unfolding_all decide

/-- Claim C10 (amended): in YYYYMMDDhhmmssToDateTime64, for every finite input
whose fractional part (input minus its floor) exceeds one half, the integral
fields are taken from the rounded-up value (llround = floor + 1) and the
residue (input minus rounded value) is negative, so the packed fraction
llround(residue * 10^precision) is at most 0 — it is 0 rather than negative
when the scaled residue is within one half of zero (e.g. at precision 0); and
for some finite inputs the function does produce a strictly negative fraction
rather than one in [0, 10^precision - 1], as at input 20230911131415.75 with
precision 3, which packs fraction -250. -/
theorem C10_yyyymmddhhmmss64_negative_residue_amended (precision : ℕ) (q : ℚ)
    (hfrac : half < q - (qfloor q : ℚ)) :
    llround q = qfloor q + 1 ∧
    q - (llround q : ℚ) < 0 ∧
    llround ((q - (llround q : ℚ)) * 10 ^ precision) ≤ 0 ∧
    yyyymmddhhmmssToDateTime64Row gregLUT 3
        (.num ((20230911131415 : ℚ) + mkRat 3 4)) =
      .ok (decimalFromComponents (dateTime gregLUT (.num 2023) (.num 9) (.num 11)
        (.num 13) (.num 14) (.num 16)) (-250) 3) ∧
    (-250 : ℤ) < 0 := by
  have h1 : llround q = qfloor q + 1 := llround_eq_qfloor_add_one hfrac
  have hfu : q < ⌊q⌋ + 1 := Int.lt_floor_add_one q
  have h2 : q - (llround q : ℚ) < 0 := by
    rw [h1, qfloor_eq_floor]
    push_cast
    linarith
  refine ⟨h1, h2, ?_, ?_, by norm_num⟩
  · have hres : q - (llround q : ℚ) ≤ 0 := le_of_lt h2
    have hpow : (0 : ℚ) ≤ 10 ^ precision := by positivity
    exact llround_nonpos (mul_nonpos_of_nonpos_of_nonneg hres hpow)
  · with_unfolding_all decide

/-- Witness for the amended C10: at input 20230911131415.75 the rounding goes
up, and at precision 3 the packed fraction is the negative value -250. -/
theorem C10_yyyymmddhhmmss64_negative_residue_amended_witness :
    llround ((20230911131415 : ℚ) + mkRat 3 4) =
      qfloor ((20230911131415 : ℚ) + mkRat 3 4) + 1 ∧
    yyyymmddhhmmssToDateTime64Row gregLUT 3
        (.num ((20230911131415 : ℚ) + mkRat 3 4)) =
      .ok (decimalFromComponents (dateTime gregLUT (.num 2023) (.num 9) (.num 11)
        (.num 13) (.num 14) (.num 16)) (-250) 3) := by
  have h := C10_yyyymmddhhmmss64_negative_residue_amended 3
    ((20230911131415 : ℚ) + mkRat 3 4) (by with_unfolding_all decide)
  exact ⟨h.1, h.2.2.2.1⟩

end DB
